import Mathlib

/-!
Shallow embedding of the mint commerce core
(`backend/mercury-core/services/{accounting,account,order,inventory}.py`
and `backend/mercury-core/fsm/order_states.py`), with theorems checking the
natural-language specification against it.

Conventions used throughout:
* Python `float` money amounts are modelled as `ℚ` (the literal `0.01`
  tolerance becomes `1/100`); Python `int` quantities become `Int`.
* A SQLAlchemy `Session` is modelled as an explicit database value threaded
  through each operation.  `db.commit()` is the persistence point: an
  operation that raises before committing returns the *original* database
  (the session is rolled back / discarded), one that commits returns the
  updated database.
* `db.query(X).filter(X.id == i).first()` is `List.find?`, i.e. the first
  row with a matching id; in-place mutation of the found row is
  `updateFirst` (update the first matching row).
* Raised `ValueError` / `HTTPException` become values of small error
  inductives tagged by raise site.
* Audit-only columns that no embedded operation reads (timestamps,
  `reference`, `source_type`, `source_id`, `performed_by` on transactions,
  digital-delivery fields, etc.) are elided; columns that any embedded
  operation reads or writes are kept under their source names.
-/

namespace Mint

/-! ## Generic first-match update (models in-place mutation of the row
returned by `.first()`) -/

/-- Update the first element of the list satisfying the predicate, leaving
everything else unchanged.  This is how mutating the object returned by
`db.query(...).filter(...).first()` acts on the table. -/
def updateFirst {α : Type} (p : α → Bool) (f : α → α) : List α → List α
  | [] => []
  | a :: rest => if p a then f a :: rest else a :: updateFirst p f rest

/-! ## Accounting data model (`models/account.py`, `models/transaction.py`) -/

/-- `AccountType` from `models/account.py`. -/
inductive AccountType
  | asset
  | liability
  | equity
  | income
  | expense
deriving DecidableEq, Repr

/-- `TransactionType` from `models/transaction.py`. -/
inductive TransactionType
  | debit
  | credit
deriving DecidableEq, Repr

/-- `Account` row (`models/account.py`); `balance` is the denormalized
running balance column. -/
structure Account where
  id : Nat
  account_type : AccountType
  balance : ℚ
  is_active : Bool
deriving DecidableEq, Repr

/-- `Transaction` row (`models/transaction.py`): one posting of a journal
entry. -/
structure Transaction where
  journal_entry_id : String
  account_id : Nat
  transaction_type : TransactionType
  amount : ℚ
  description : String
deriving DecidableEq, Repr

/-- One element of the `entries` list passed to
`AccountingService.create_journal_entry` (a dict with keys
`account_id`, `type`, `amount`). -/
structure Entry where
  account_id : Nat
  type : TransactionType
  amount : ℚ
deriving DecidableEq, Repr

/-- The accounting tables touched by the journal engine. -/
structure LedgerDB where
  accounts : List Account
  transactions : List Transaction
deriving DecidableEq, Repr

/-- Raise sites of `services/accounting.py` / `services/account.py`. -/
inductive AcctError
  | accountNotFound (account_id : Nat)
  | unbalancedEntry (total_debit total_credit : ℚ)
deriving DecidableEq, Repr

/-- First account with the given id (`db.query(Account).filter(Account.id
== account_id).first()`). -/
def findAccount (accounts : List Account) (account_id : Nat) : Option Account :=
  accounts.find? (fun a => a.id == account_id)

/-- The balance delta one posting applies to an account of the given type,
exactly as the branch in `create_journal_entry` lines 52-63: a debit
increases asset/expense balances and decreases the rest, a credit increases
liability/equity/income balances and decreases the rest (the normal-balance
rule). -/
def balanceDelta (aty : AccountType) (t : TransactionType) (amount : ℚ) : ℚ :=
  match t with
  | .debit => if aty = .asset ∨ aty = .expense then amount else -amount
  | .credit => if aty = .liability ∨ aty = .equity ∨ aty = .income then amount else -amount

/-- The loop body of `create_journal_entry` (lines 32-63): for each entry
resolve the account (raising `ValueError` if missing), add the transaction
row, update the account balance in the session, and accumulate the debit
and credit totals. -/
def postEntries (jeId description : String) :
    LedgerDB → List Entry → ℚ → ℚ → Except AcctError (LedgerDB × ℚ × ℚ)
  | db, [], total_debit, total_credit => .ok (db, total_debit, total_credit)
  | db, e :: rest, total_debit, total_credit =>
    match findAccount db.accounts e.account_id with
    | none => .error (.accountNotFound e.account_id)
    | some account =>
      let db' : LedgerDB :=
        { accounts :=
            updateFirst (fun a => a.id == e.account_id)
              (fun a => { a with balance := a.balance + balanceDelta account.account_type e.type e.amount })
              db.accounts,
          transactions := db.transactions ++ [⟨jeId, e.account_id, e.type, e.amount, description⟩] }
      match e.type with
      | .debit => postEntries jeId description db' rest (total_debit + e.amount) total_credit
      | .credit => postEntries jeId description db' rest total_debit (total_credit + e.amount)

/-- `AccountingService.create_journal_entry`.  The generated
`journal_entry_id` (date prefix + random suffix, line 27) is an external
input, so it is passed as the `jeId` argument.  After the loop the
double-entry check `abs(total_debit - total_credit) > 0.01` runs; a raise
happens before `db.commit()`, so the session is rolled back and the
database is returned unchanged. -/
def create_journal_entry (db : LedgerDB) (jeId : String) (entries : List Entry)
    (description : String) : Except AcctError String × LedgerDB :=
  match postEntries jeId description db entries 0 0 with
  | .error e => (.error e, db)
  | .ok (db', total_debit, total_credit) =>
    if |total_debit - total_credit| > 1/100 then
      (.error (.unbalancedEntry total_debit total_credit), db)
    else
      (.ok jeId, db')

/-- `AccountingService.get_account_balance` (the fast path): return the
denormalized `balance` column. -/
def AccountingService.get_account_balance (db : LedgerDB) (account_id : Nat) :
    Except AcctError ℚ :=
  match findAccount db.accounts account_id with
  | none => .error (.accountNotFound account_id)
  | some account => .ok account.balance

/-- Sum of the amounts of the given account's debit transactions
(`services/account.py` lines 130-132). -/
def debitSumFor (ts : List Transaction) (account_id : Nat) : ℚ :=
  ((ts.filter (fun t => t.account_id == account_id && t.transaction_type == TransactionType.debit)).map
    (·.amount)).sum

/-- Sum of the amounts of the given account's credit transactions
(`services/account.py` lines 134-136). -/
def creditSumFor (ts : List Transaction) (account_id : Nat) : ℚ :=
  ((ts.filter (fun t => t.account_id == account_id && t.transaction_type == TransactionType.credit)).map
    (·.amount)).sum

/-- `AccountService.get_account_balance` (the consistency-check path):
recompute `debit_sum - credit_sum` from the account's transactions — the
same formula for every account type — then overwrite the denormalized
`balance` column with it and commit. -/
def AccountService.get_account_balance (db : LedgerDB) (account_id : Nat) :
    Except AcctError ℚ × LedgerDB :=
  match findAccount db.accounts account_id with
  | none => (.error (.accountNotFound account_id), db)
  | some _ =>
    let balance := debitSumFor db.transactions account_id - creditSumFor db.transactions account_id
    let accounts' :=
      updateFirst (fun a => a.id == account_id) (fun a => { a with balance := balance }) db.accounts
    (.ok balance, { db with accounts := accounts' })

/-! ## Derived quantities for the ledger invariants -/

/-- The transaction rows one `create_journal_entry` call appends for a
given entries list. -/
def txnsOf (jeId description : String) (entries : List Entry) : List Transaction :=
  entries.map (fun e => ⟨jeId, e.account_id, e.type, e.amount, description⟩)

/-- Debit total of an entries list (the final value of the `total_debit`
accumulator). -/
def entriesDebitTotal (entries : List Entry) : ℚ :=
  ((entries.filter (fun e => e.type == TransactionType.debit)).map (·.amount)).sum

/-- Credit total of an entries list. -/
def entriesCreditTotal (entries : List Entry) : ℚ :=
  ((entries.filter (fun e => e.type == TransactionType.credit)).map (·.amount)).sum

/-- Global sum of all debit postings in the transactions table. -/
def debitTotal (ts : List Transaction) : ℚ :=
  ((ts.filter (fun t => t.transaction_type == TransactionType.debit)).map (·.amount)).sum

/-- Global sum of all credit postings in the transactions table. -/
def creditTotal (ts : List Transaction) : ℚ :=
  ((ts.filter (fun t => t.transaction_type == TransactionType.credit)).map (·.amount)).sum

/-- The transactions posted against one account. -/
def accountPostings (ts : List Transaction) (account_id : Nat) : List Transaction :=
  ts.filter (fun t => t.account_id == account_id)

/-- Signed sum of a list of postings under the normal-balance rule for the
given account type. -/
def signedSum (aty : AccountType) (ts : List Transaction) : ℚ :=
  (ts.map (fun t => balanceDelta aty t.transaction_type t.amount)).sum

/-- Every account's denormalized balance equals the signed sum of its own
postings. -/
def BalancedAccounts (db : LedgerDB) : Prop :=
  ∀ a ∈ db.accounts, a.balance = signedSum a.account_type (accountPostings db.transactions a.id)

/-- Account ids are pairwise distinct (the `accounts.id` primary key). -/
def UniqueIds (db : LedgerDB) : Prop :=
  (db.accounts.map (·.id)).Nodup

/-- A fresh ledger: a chart of accounts with distinct ids, all balances
zero, and no transactions posted yet. -/
def FreshLedger (db : LedgerDB) : Prop :=
  UniqueIds db ∧ (∀ a ∈ db.accounts, a.balance = 0) ∧ db.transactions = []

/-- A sequence of `create_journal_entry` calls, each given its generated
journal-entry id and entries list; `none` when any call raises. -/
def run_journal (db : LedgerDB) : List (String × List Entry) → Option LedgerDB
  | [] => some db
  | (jeId, entries) :: rest =>
    match create_journal_entry db jeId entries "entry" with
    | (.ok _, db') => run_journal db' rest
    | (.error _, _) => none

/-! ## Order state machine (`fsm/order_states.py`, `models/order.py`) -/

/-- `OrderStatus` from `models/order.py`. -/
inductive OrderStatus
  | draft
  | pending_payment
  | payment_submitted
  | confirmed
  | processing
  | dispatched
  | completed
  | cancelled
  | expired
deriving DecidableEq, Repr, Fintype

/-- The transition table `ORDER_STATE_TRANSITIONS` of `fsm/order_states.py`
(a total function: the Python code reads the dict with `.get(state, [])`). -/
def ORDER_STATE_TRANSITIONS : OrderStatus → List OrderStatus
  | .draft => [.pending_payment, .cancelled]
  | .pending_payment => [.payment_submitted, .cancelled, .expired]
  | .payment_submitted => [.confirmed, .cancelled]
  | .confirmed => [.processing, .cancelled]
  | .processing => [.dispatched, .cancelled]
  | .dispatched => [.completed]
  | .completed => []
  | .cancelled => []
  | .expired => []

/-- `can_transition` from `fsm/order_states.py`. -/
def can_transition (from_state to_state : OrderStatus) : Bool :=
  (ORDER_STATE_TRANSITIONS from_state).contains to_state

/-! ## Products (`models/product.py`) -/

/-- `ProductType` from `models/product.py`. -/
inductive ProductType
  | physical
  | digital
  | service
deriving DecidableEq, Repr

/-- `Product` row (`models/product.py`), restricted to the columns the
embedded operations read: identity, pricing and stock. -/
structure Product where
  id : Nat
  name : String
  sku : String
  product_type : ProductType
  selling_price : ℚ
  stock_quantity : Int
deriving DecidableEq, Repr

/-! ## Orders (`models/order.py`, `models/order_item.py`,
`models/state_transition.py`, `services/order.py`) -/

/-- `Order` row; `expires_at` is a timestamp modelled as `Int`. -/
structure Order where
  id : Nat
  order_number : String
  customer_id : Nat
  status : OrderStatus
  subtotal : ℚ
  total_amount : ℚ
  expires_at : Int
deriving DecidableEq, Repr

/-- `OrderItem` row: the immutable snapshot of product data taken at
order-creation time. -/
structure OrderItem where
  order_id : Nat
  product_id : Nat
  product_name : String
  product_sku : String
  quantity : Int
  unit_price : ℚ
  subtotal : ℚ
deriving DecidableEq, Repr

/-- `OrderStateTransition` audit row (`models/state_transition.py`). -/
structure OrderStateTransitionRow where
  order_id : Nat
  from_state : OrderStatus
  to_state : OrderStatus
  reason : String
  performed_by : String
deriving DecidableEq, Repr

/-- The tables touched by `services/order.py`. -/
structure OrderDB where
  products : List Product
  orders : List Order
  order_items : List OrderItem
  state_transitions : List OrderStateTransitionRow
deriving DecidableEq, Repr

/-- Raise sites of `services/order.py`. -/
inductive OrderError
  | productNotFound (product_id : Nat)
  | orderNotFound
  | invalidTransition (from_state to_state : OrderStatus)
deriving DecidableEq, Repr

namespace OrderService

/-- The item loop of `OrderService.create_order` (`services/order.py`
lines 35-53): resolve each product (raising `ValueError` if missing),
snapshot `unit_price = product.selling_price`, compute the line subtotal
`unit_price * quantity`, accumulate the order subtotal and build the
`OrderItem` rows (`order_id` is filled in after `db.flush()`). -/
def buildItems (products : List Product) :
    List (Nat × Int) → ℚ → List OrderItem → Except OrderError (ℚ × List OrderItem)
  | [], subtotal, order_items => .ok (subtotal, order_items)
  | (product_id, quantity) :: rest, subtotal, order_items =>
    match products.find? (fun p => p.id == product_id) with
    | none => .error (.productNotFound product_id)
    | some product =>
      let unit_price := product.selling_price
      let item_subtotal := unit_price * (quantity : ℚ)
      buildItems products rest (subtotal + item_subtotal)
        (order_items ++ [{ order_id := 0, product_id := product_id,
                           product_name := product.name, product_sku := product.sku,
                           quantity := quantity, unit_price := unit_price,
                           subtotal := item_subtotal }])

/-- `OrderService.create_order` (`services/order.py` lines 18-80).  The
generated `order_number`, the fresh row id from `db.flush()`, the clock
and the configured `ORDER_EXPIRY_HOURS` are external inputs, passed as
arguments.  The function performs no stock check and no stock movement,
and sets `total_amount = subtotal` (the `Order` row is built with no
`tax_amount`/`discount_amount`, which default to `0` in the model). -/
def create_order (db : OrderDB) (order_number : String) (customer_id : Nat)
    (items : List (Nat × Int)) (now expiry_hours : Int) (order_id : Nat) :
    Except OrderError Order × OrderDB :=
  match buildItems db.products items 0 [] with
  | .error e => (.error e, db)
  | .ok (subtotal, order_items) =>
    let order : Order :=
      { id := order_id, order_number := order_number, customer_id := customer_id,
        status := OrderStatus.pending_payment, subtotal := subtotal,
        total_amount := subtotal, expires_at := now + expiry_hours }
    let order_items' := order_items.map (fun it => { it with order_id := order_id })
    (.ok order,
     { db with orders := db.orders ++ [order],
               order_items := db.order_items ++ order_items' })

/-- `OrderService.transition_order_state` (`services/order.py` lines
82-125): load the order (`ValueError` if missing), reject with
`Invalid transition` when `can_transition` denies the move, otherwise
persist the new status with an `OrderStateTransition` audit row and
commit.  Timestamp stamping (`payment_confirmed_at` and friends) touches
no field any claim reads and is elided. -/
def transition_order_state (db : OrderDB) (order_id : Nat) (new_state : OrderStatus)
    (performed_by reason : String) : Except OrderError Order × OrderDB :=
  match db.orders.find? (fun o => o.id == order_id) with
  | none => (.error .orderNotFound, db)
  | some order =>
    if can_transition order.status new_state then
      let order' : Order := { order with status := new_state }
      let orders' := updateFirst (fun o => o.id == order_id)
        (fun o => { o with status := new_state }) db.orders
      let audit : OrderStateTransitionRow :=
        ⟨order_id, order.status, new_state, reason, performed_by⟩
      (.ok order', { db with orders := orders',
                             state_transitions := db.state_transitions ++ [audit] })
    else
      (.error (.invalidTransition order.status new_state), db)

/-- The loop of `expire_old_orders`: each stale order is transitioned via
`transition_order_state` (each call commits on its own); a raise stops the
sweep, keeping the transitions already committed. -/
def expireLoop : OrderDB → List Nat → Nat → Except OrderError Nat × OrderDB
  | db, [], count => (.ok count, db)
  | db, oid :: rest, count =>
    match transition_order_state db oid OrderStatus.expired "system" "Order expired" with
    | (.ok _, db') => expireLoop db' rest (count + 1)
    | (.error e, db') => (.error e, db')

/-- `OrderService.expire_old_orders` (`services/order.py` lines 137-153):
select the orders in `pending_payment`/`payment_submitted` whose
`expires_at` passed, transition each to `expired` through
`transition_order_state`, and return how many were processed. -/
def expire_old_orders (db : OrderDB) (now : Int) : Except OrderError Nat × OrderDB :=
  let stale := db.orders.filter
    (fun o => (o.status == OrderStatus.pending_payment
                || o.status == OrderStatus.payment_submitted)
              && decide (o.expires_at < now))
  expireLoop db (stale.map (·.id)) 0

end OrderService

/-! ## Inventory (`models/inventory.py`, `services/inventory.py`) -/

/-- `MovementType` exactly as `models/inventory.py` declares it — the one
`MovementType` in the source, and the one `services/inventory.py` imports:
`inbound`, `outbound`, `adjustment`, `return` (Lean name `return_`),
`damage`.  It has no `PURCHASE` and no `SALE` member, although
`services/inventory.py` (lines 47, 49, 74, 88) references both. -/
inductive MovementType
  | inbound
  | outbound
  | adjustment
  | return_
  | damage
deriving DecidableEq, Repr

/-- `InventoryMovement` row (`models/inventory.py`). -/
structure InventoryMovement where
  product_id : Nat
  movement_type : MovementType
  quantity : Int
deriving DecidableEq, Repr

/-- The tables touched by `services/inventory.py`. -/
structure InvDB where
  products : List Product
  movements : List InventoryMovement
deriving DecidableEq, Repr

/-- Raise sites of `InventoryService.record_movement`.  `attributeError`
is the `AttributeError` raised at line 47 when `MovementType.PURCHASE` is
evaluated: the enum of `models/inventory.py` has no such member.
`insufficientStock` is the raise at line 51, which sits behind line 47 and
is therefore unreachable. -/
inductive InvError
  | productNotFound
  | notPhysical
  | attributeError
  | insufficientStock
deriving DecidableEq, Repr

namespace InventoryService

/-- `InventoryService.record_movement` (`services/inventory.py` lines
13-61): load the product (`ValueError` if missing, lines 26-28, or not
physical, lines 30-31), build the movement row and `db.add` it (lines
34-44, session-only), then dispatch on the movement type.  The first
dispatch line (47) evaluates the list
`[MovementType.PURCHASE, MovementType.RETURN]`, and `MovementType.PURCHASE`
does not exist on the enum `models/inventory.py` declares — so every call,
whatever the movement type, raises `AttributeError` there, before the
sufficiency check at line 50, before any stock update and before
`db.commit()` at line 57.  The raise aborts the session, so the database
is returned unchanged; the intended branches at lines 47-55 (purchase and
return add, sale and damage check then subtract, adjustment adds the
signed quantity unconditionally) are all unreachable. -/
def record_movement (db : InvDB) (product_id : Nat) (movement_type : MovementType)
    (quantity : Int) : Except InvError InventoryMovement × InvDB :=
  match db.products.find? (fun p => p.id == product_id) with
  | none => (.error .productNotFound, db)
  | some product =>
    if product.product_type ≠ ProductType.physical then (.error .notPhysical, db)
    else
      let _movement : InventoryMovement := ⟨product_id, movement_type, quantity⟩
      (.error .attributeError, db)

end InventoryService

/-! ## Concrete instances used by counterexamples and witnesses -/

/-- A fresh two-account chart: account 1 is an asset, account 2 an income
account, both active with balance 0 and no postings. -/
def exLedger0 : LedgerDB :=
  { accounts := [⟨1, .asset, 0, true⟩, ⟨2, .income, 0, true⟩], transactions := [] }

/-- Entries that debit 100 and credit 99.99 — a nonzero (0.01) discrepancy. -/
def exEntriesOff : List Entry := [⟨1, .debit, 100⟩, ⟨2, .credit, 9999/100⟩]

/-- Entries that debit 100 and credit 50 — far beyond any tolerance. -/
def exEntriesUnbal : List Entry := [⟨1, .debit, 100⟩, ⟨2, .credit, 50⟩]

/-- A balanced pair of entries: debit 100 to the asset account, credit 100
to the income account. -/
def exEntriesBal : List Entry := [⟨1, .debit, 100⟩, ⟨2, .credit, 100⟩]

/-- The ledger after `exEntriesOff` commits: asset balance 100, income
balance 99.99, both transaction rows stored. -/
def exLedgerOff : LedgerDB :=
  { accounts := [⟨1, .asset, 100, true⟩, ⟨2, .income, 9999/100, true⟩],
    transactions := [⟨"JE1", 1, .debit, 100, "entry"⟩, ⟨"JE1", 2, .credit, 9999/100, "entry"⟩] }

/-- The ledger after `exEntriesBal` commits. -/
def exLedgerBal : LedgerDB :=
  { accounts := [⟨1, .asset, 100, true⟩, ⟨2, .income, 100, true⟩],
    transactions := [⟨"JE1", 1, .debit, 100, "entry"⟩, ⟨"JE1", 2, .credit, 100, "entry"⟩] }

/-- A run consisting of the single off-by-0.01 call. -/
def exCallsOff : List (String × List Entry) := [("JE1", exEntriesOff)]

/-- A run consisting of the single balanced call. -/
def exCallsBal : List (String × List Entry) := [("JE1", exEntriesBal)]

/-- The transition table exactly as the claim lists it, for comparison
with the code's `can_transition`. -/
def specTransitionTable : List (OrderStatus × OrderStatus) :=
  [(.draft, .pending_payment), (.draft, .cancelled),
   (.pending_payment, .payment_submitted), (.pending_payment, .cancelled),
   (.pending_payment, .expired),
   (.payment_submitted, .confirmed), (.payment_submitted, .cancelled),
   (.confirmed, .processing), (.confirmed, .cancelled),
   (.processing, .dispatched), (.processing, .cancelled),
   (.dispatched, .completed)]

/-- A dispatched order. -/
def exOrderDispatched : Order :=
  { id := 1, order_number := "ORD-1", customer_id := 7, status := .dispatched,
    subtotal := 10, total_amount := 10, expires_at := 0 }

/-- An order database holding only the dispatched order. -/
def exOrderDB : OrderDB :=
  { products := [], orders := [exOrderDispatched], order_items := [], state_transitions := [] }

/-- A stale order stuck in `payment_submitted` whose expiry passed. -/
def exOrderStale : Order :=
  { id := 1, order_number := "ORD-2", customer_id := 7, status := .payment_submitted,
    subtotal := 10, total_amount := 10, expires_at := 0 }

/-- An order database holding only the stale `payment_submitted` order. -/
def exOrderDBStale : OrderDB :=
  { products := [], orders := [exOrderStale], order_items := [], state_transitions := [] }

/-- A physical product with stock 5. -/
def exProduct : Product :=
  { id := 1, name := "Widget", sku := "SKU-1", product_type := .physical,
    selling_price := 10, stock_quantity := 5 }

/-- An inventory database holding only `exProduct`. -/
def exInvDB : InvDB := { products := [exProduct], movements := [] }

/-- A two-product catalog priced 10 and 5, for the order-total claim. -/
def exCatalog : OrderDB :=
  { products := [⟨1, "A", "SKU-A", .physical, 10, 100⟩, ⟨2, "B", "SKU-B", .physical, 5, 100⟩],
    orders := [], order_items := [], state_transitions := [] }

/-- A one-product catalog with stock 5, for the stock-handling claim on
`services/order.py`'s `create_order`. -/
def exCatalogLow : OrderDB :=
  { products := [⟨1, "A", "SKU-A", .physical, 10, 5⟩],
    orders := [], order_items := [], state_transitions := [] }

end Mint

namespace Mint

/-! ## Basic lemmas about `updateFirst` and `find?` -/

theorem updateFirst_map_key {α β : Type} (k : α → β) (p : α → Bool) (f : α → α)
    (hf : ∀ a, k (f a) = k a) :
    ∀ l : List α, (updateFirst p f l).map k = l.map k := by
  intro l
  induction l with
  | nil => rfl
  | cons a rest ih =>
    by_cases h : p a = true
    · simp [updateFirst, h, hf]
    · simp [updateFirst, h, ih]

theorem find?_updateFirst_same {α : Type} (p : α → Bool) (f : α → α)
    (hf : ∀ a, p (f a) = p a) :
    ∀ l : List α, (updateFirst p f l).find? p = (l.find? p).map f := by
  intro l
  induction l with
  | nil => rfl
  | cons a rest ih =>
    by_cases h : p a = true
    · simp [updateFirst, h, List.find?_cons, hf]
    · simp only [Bool.not_eq_true] at h
      simp [updateFirst, h, List.find?_cons, ih, hf]

theorem find?_updateFirst_other {α : Type} (p q : α → Bool) (f : α → α)
    (hq : ∀ a, q (f a) = q a) (hpq : ∀ a, p a = true → q a = false) :
    ∀ l : List α, (updateFirst p f l).find? q = l.find? q := by
  intro l
  induction l with
  | nil => rfl
  | cons a rest ih =>
    by_cases h : p a = true
    · simp [updateFirst, h, List.find?_cons, hq, hpq a h]
    · simp only [Bool.not_eq_true] at h
      simp [updateFirst, h, List.find?_cons, ih]

theorem updateFirst_eq_map_of_nodup {α : Type} (k : α → Nat) (i : Nat) (f : α → α) :
    ∀ l : List α, (l.map k).Nodup →
      updateFirst (fun a => k a == i) f l = l.map (fun a => if k a == i then f a else a) := by
  intro l
  induction l with
  | nil => intro _; rfl
  | cons a rest ih =>
    intro hnd
    rw [List.map_cons, List.nodup_cons] at hnd
    by_cases h : k a = i
    · have hrest : rest.map (fun b => if k b = i then f b else b) = rest := by
        have hcg : ∀ b ∈ rest, (if k b = i then f b else b) = id b := by
          intro b hb
          have hb' : k b ≠ i := by
            intro hk
            exact hnd.1 (List.mem_map.mpr ⟨b, hb, by rw [hk, h]⟩)
          simp [hb']
        rw [List.map_congr_left hcg, List.map_id]
      simp [updateFirst, h, hrest]
    · simp [updateFirst, h, ih hnd.2]

theorem find?_key_eq_some_of_nodup {α : Type} (k : α → Nat) :
    ∀ (l : List α), (l.map k).Nodup → ∀ a ∈ l, l.find? (fun x => k x == k a) = some a := by
  intro l
  induction l with
  | nil => intro _ a ha; cases ha
  | cons b rest ih =>
    intro hnd a ha
    rw [List.map_cons, List.nodup_cons] at hnd
    rcases List.mem_cons.mp ha with rfl | ha'
    · simp [List.find?_cons]
    · have hne : (k b == k a) = false := by
        simp only [beq_eq_false_iff_ne, ne_eq]
        intro h
        exact hnd.1 (h ▸ List.mem_map.mpr ⟨a, ha', rfl⟩)
      simp [List.find?_cons, hne, ih hnd.2 a ha']

/-! ## Sum decomposition lemmas -/

theorem debitTotal_append (ts us : List Transaction) :
    debitTotal (ts ++ us) = debitTotal ts + debitTotal us := by
  simp [debitTotal, List.filter_append]

theorem creditTotal_append (ts us : List Transaction) :
    creditTotal (ts ++ us) = creditTotal ts + creditTotal us := by
  simp [creditTotal, List.filter_append]

theorem accountPostings_append (ts us : List Transaction) (i : Nat) :
    accountPostings (ts ++ us) i = accountPostings ts i ++ accountPostings us i := by
  simp [accountPostings, List.filter_append]

theorem signedSum_append (aty : AccountType) (ts us : List Transaction) :
    signedSum aty (ts ++ us) = signedSum aty ts + signedSum aty us := by
  simp [signedSum]

theorem debitTotal_txnsOf (jeId description : String) (es : List Entry) :
    debitTotal (txnsOf jeId description es) = entriesDebitTotal es := by
  induction es with
  | nil => rfl
  | cons e rest ih =>
    cases he : e.type <;>
      simp_all [txnsOf, debitTotal, entriesDebitTotal, List.filter_cons, he]

theorem creditTotal_txnsOf (jeId description : String) (es : List Entry) :
    creditTotal (txnsOf jeId description es) = entriesCreditTotal es := by
  induction es with
  | nil => rfl
  | cons e rest ih =>
    cases he : e.type <;>
      simp_all [txnsOf, creditTotal, entriesCreditTotal, List.filter_cons, he]

/-! ## Preservation of the balance invariant by one posting -/

theorem UniqueIds_update (db : LedgerDB) (i : Nat) (g : Account → Account)
    (hg : ∀ a, (g a).id = a.id) (ts' : List Transaction) (hnd : UniqueIds db) :
    UniqueIds { accounts := updateFirst (fun a => a.id == i) g db.accounts, transactions := ts' } := by
  show (List.map (fun a : Account => a.id)
      (updateFirst (fun a => a.id == i) g db.accounts)).Nodup
  rw [updateFirst_map_key (fun a : Account => a.id) (fun a => a.id == i) g hg db.accounts]
  exact hnd

theorem step_balanced (db : LedgerDB) (acct : Account) (i : Nat)
    (ty : TransactionType) (amt : ℚ) (jeId description : String)
    (hnd : UniqueIds db) (hb : BalancedAccounts db)
    (hfind : findAccount db.accounts i = some acct) :
    BalancedAccounts
      { accounts := updateFirst (fun a => a.id == i)
          (fun a => { a with balance := a.balance + balanceDelta acct.account_type ty amt })
          db.accounts,
        transactions := db.transactions ++ [⟨jeId, i, ty, amt, description⟩] } := by
  intro a' ha'
  simp only at ha'
  rw [updateFirst_eq_map_of_nodup (fun a : Account => a.id) i
      (fun a => { a with balance := a.balance + balanceDelta acct.account_type ty amt })
      db.accounts hnd] at ha'
  rcases List.mem_map.mp ha' with ⟨a, ha, rfl⟩
  by_cases h : a.id = i
  · have hfa : findAccount db.accounts i = some a := by
      have hkey := find?_key_eq_some_of_nodup (fun x : Account => x.id) db.accounts hnd a ha
      rw [findAccount, ← h]
      exact hkey
    have haeq : acct = a := by
      rw [hfa] at hfind
      exact (Option.some.inj hfind).symm
    subst haeq
    have hbal : acct.balance = signedSum acct.account_type (accountPostings db.transactions i) := by
      rw [← h]
      exact hb acct ha
    have hpost : accountPostings [⟨jeId, i, ty, amt, description⟩] i
        = [⟨jeId, i, ty, amt, description⟩] := by
      simp [accountPostings, List.filter_cons]
    simp only [h, beq_self_eq_true, if_true]
    show acct.balance + balanceDelta acct.account_type ty amt
        = signedSum acct.account_type
            (accountPostings (db.transactions ++ [⟨jeId, i, ty, amt, description⟩]) i)
    rw [accountPostings_append, signedSum_append, ← hbal, hpost]
    simp [signedSum]
  · have hcond : (a.id == i) = false := by simp [h]
    have hpost : accountPostings [⟨jeId, i, ty, amt, description⟩] a.id = [] := by
      simp only [accountPostings, List.filter_cons, List.filter_nil]
      have : (⟨jeId, i, ty, amt, description⟩ : Transaction).account_id ≠ a.id := by
        intro hc
        exact h hc.symm
      simp [this]
    simp only [hcond, Bool.false_eq_true, if_false]
    show a.balance = signedSum a.account_type
        (accountPostings (db.transactions ++ [⟨jeId, i, ty, amt, description⟩]) a.id)
    rw [accountPostings_append, hpost, List.append_nil]
    exact hb a ha

/-! ## The journal-entry loop: full characterization of the success case -/

theorem postEntries_ok (jeId description : String) :
    ∀ (es : List Entry) (db : LedgerDB) (d c : ℚ) (db' : LedgerDB) (d' c' : ℚ),
      UniqueIds db → BalancedAccounts db →
      postEntries jeId description db es d c = .ok (db', d', c') →
      UniqueIds db' ∧ BalancedAccounts db' ∧
      db'.accounts.map (·.id) = db.accounts.map (·.id) ∧
      db'.transactions = db.transactions ++ txnsOf jeId description es ∧
      d' = d + entriesDebitTotal es ∧ c' = c + entriesCreditTotal es := by
  intro es
  induction es with
  | nil =>
    intro db d c db' d' c' hnd hb h
    simp only [postEntries, Except.ok.injEq, Prod.mk.injEq] at h
    obtain ⟨rfl, rfl, rfl⟩ := h
    simp [txnsOf, entriesDebitTotal, entriesCreditTotal, hnd, hb]
  | cons e rest ih =>
    intro db d c db' d' c' hnd hb h
    cases hfind : findAccount db.accounts e.account_id with
    | none => simp [postEntries, hfind] at h
    | some acct =>
      cases hty : e.type with
      | debit =>
        simp only [postEntries, hfind, hty] at h
        have hnd1 := UniqueIds_update db e.account_id
          (fun a => { a with balance := a.balance + balanceDelta acct.account_type TransactionType.debit e.amount })
          (fun a => rfl)
          (db.transactions ++ [⟨jeId, e.account_id, TransactionType.debit, e.amount, description⟩]) hnd
        have hb1 := step_balanced db acct e.account_id TransactionType.debit e.amount jeId description hnd hb hfind
        obtain ⟨h1, h2, h3, h4, h5, h6⟩ := ih _ (d + e.amount) c db' d' c' hnd1 hb1 h
        refine ⟨h1, h2, ?_, ?_, ?_, ?_⟩
        · rw [h3]
          exact updateFirst_map_key (fun a : Account => a.id) (fun a => a.id == e.account_id)
            (fun a => { a with balance := a.balance + balanceDelta acct.account_type TransactionType.debit e.amount })
            (fun a => rfl) db.accounts
        · rw [h4]
          simp [txnsOf, hty, List.append_assoc]
        · rw [h5]
          simp only [entriesDebitTotal, List.filter_cons, hty]
          simp [entriesDebitTotal]
          ring
        · rw [h6]
          simp only [entriesCreditTotal, List.filter_cons, hty]
          simp [entriesCreditTotal]
      | credit =>
        simp only [postEntries, hfind, hty] at h
        have hnd1 := UniqueIds_update db e.account_id
          (fun a => { a with balance := a.balance + balanceDelta acct.account_type TransactionType.credit e.amount })
          (fun a => rfl)
          (db.transactions ++ [⟨jeId, e.account_id, TransactionType.credit, e.amount, description⟩]) hnd
        have hb1 := step_balanced db acct e.account_id TransactionType.credit e.amount jeId description hnd hb hfind
        obtain ⟨h1, h2, h3, h4, h5, h6⟩ := ih _ d (c + e.amount) db' d' c' hnd1 hb1 h
        refine ⟨h1, h2, ?_, ?_, ?_, ?_⟩
        · rw [h3]
          exact updateFirst_map_key (fun a : Account => a.id) (fun a => a.id == e.account_id)
            (fun a => { a with balance := a.balance + balanceDelta acct.account_type TransactionType.credit e.amount })
            (fun a => rfl) db.accounts
        · rw [h4]
          simp [txnsOf, hty, List.append_assoc]
        · rw [h5]
          simp only [entriesDebitTotal, List.filter_cons, hty]
          simp [entriesDebitTotal]
        · rw [h6]
          simp only [entriesCreditTotal, List.filter_cons, hty]
          simp [entriesCreditTotal]
          ring

/-! ## Success-case characterization of `create_journal_entry` -/

theorem create_journal_entry_ok (db : LedgerDB) (jeId description s : String) (es : List Entry)
    (db' : LedgerDB) (hnd : UniqueIds db) (hb : BalancedAccounts db)
    (h : create_journal_entry db jeId es description = (.ok s, db')) :
    UniqueIds db' ∧ BalancedAccounts db' ∧
    db'.accounts.map (·.id) = db.accounts.map (·.id) ∧
    db'.transactions = db.transactions ++ txnsOf jeId description es ∧
    |entriesDebitTotal es - entriesCreditTotal es| ≤ 1/100 := by
  rw [create_journal_entry] at h
  cases hpe : postEntries jeId description db es 0 0 with
  | error e =>
    rw [hpe] at h
    simp at h
  | ok x =>
    obtain ⟨db1, d, c⟩ := x
    rw [hpe] at h
    dsimp only at h
    by_cases hgt : |d - c| > 1/100
    · rw [if_pos hgt] at h
      simp at h
    · rw [if_neg hgt] at h
      simp only [Prod.mk.injEq, Except.ok.injEq] at h
      obtain ⟨rfl, rfl⟩ := h
      obtain ⟨h1, h2, h3, h4, h5, h6⟩ := postEntries_ok jeId description es db 0 0 db1 d c hnd hb hpe
      refine ⟨h1, h2, h3, h4, ?_⟩
      rw [not_lt] at hgt
      rw [h5, h6, zero_add, zero_add] at hgt
      exact hgt

theorem postEntries_ok_of_found (jeId description : String) :
    ∀ (es : List Entry) (db : LedgerDB) (d c : ℚ),
      (∀ e ∈ es, e.account_id ∈ db.accounts.map (·.id)) →
      ∃ db', postEntries jeId description db es d c
          = .ok (db', d + entriesDebitTotal es, c + entriesCreditTotal es) := by
  intro es
  induction es with
  | nil =>
    intro db d c _
    exact ⟨db, by simp [postEntries, entriesDebitTotal, entriesCreditTotal]⟩
  | cons e rest ih =>
    intro db d c hall
    have hmem : e.account_id ∈ db.accounts.map (·.id) := hall e (List.mem_cons_self e rest)
    obtain ⟨a, ha, haid⟩ := List.mem_map.mp hmem
    have hsome : (db.accounts.find? (fun x => x.id == e.account_id)).isSome := by
      rw [List.find?_isSome]
      exact ⟨a, ha, by simp [haid]⟩
    obtain ⟨acct, hfind⟩ := Option.isSome_iff_exists.mp hsome
    have hfind' : findAccount db.accounts e.account_id = some acct := hfind
    cases hty : e.type with
    | debit =>
      have hall1 : ∀ e' ∈ rest,
          e'.account_id ∈ (List.map (·.id)
            (updateFirst (fun a => a.id == e.account_id)
              (fun a => { a with balance := a.balance + balanceDelta acct.account_type TransactionType.debit e.amount })
              db.accounts)) := by
        intro e' he'
        rw [updateFirst_map_key (fun a : Account => a.id) (fun a => a.id == e.account_id)
          (fun a => { a with balance := a.balance + balanceDelta acct.account_type TransactionType.debit e.amount })
          (fun a => rfl) db.accounts]
        exact hall e' (List.mem_cons_of_mem _ he')
      obtain ⟨db', hdb'⟩ := ih
        ({ accounts := updateFirst (fun a => a.id == e.account_id)
             (fun a => { a with balance := a.balance + balanceDelta acct.account_type TransactionType.debit e.amount })
             db.accounts,
           transactions := db.transactions ++ [⟨jeId, e.account_id, TransactionType.debit, e.amount, description⟩] } : LedgerDB)
        (d + e.amount) c hall1
      refine ⟨db', ?_⟩
      simp only [postEntries, hfind', hty]
      rw [hdb']
      have hD : d + e.amount + entriesDebitTotal rest = d + entriesDebitTotal (e :: rest) := by
        simp only [entriesDebitTotal, List.filter_cons, hty]
        simp [entriesDebitTotal]
        ring
      have hC : c + entriesCreditTotal rest = c + entriesCreditTotal (e :: rest) := by
        simp only [entriesCreditTotal, List.filter_cons, hty]
        simp [entriesCreditTotal]
      rw [hD, hC]
    | credit =>
      have hall1 : ∀ e' ∈ rest,
          e'.account_id ∈ (List.map (·.id)
            (updateFirst (fun a => a.id == e.account_id)
              (fun a => { a with balance := a.balance + balanceDelta acct.account_type TransactionType.credit e.amount })
              db.accounts)) := by
        intro e' he'
        rw [updateFirst_map_key (fun a : Account => a.id) (fun a => a.id == e.account_id)
          (fun a => { a with balance := a.balance + balanceDelta acct.account_type TransactionType.credit e.amount })
          (fun a => rfl) db.accounts]
        exact hall e' (List.mem_cons_of_mem _ he')
      obtain ⟨db', hdb'⟩ := ih
        ({ accounts := updateFirst (fun a => a.id == e.account_id)
             (fun a => { a with balance := a.balance + balanceDelta acct.account_type TransactionType.credit e.amount })
             db.accounts,
           transactions := db.transactions ++ [⟨jeId, e.account_id, TransactionType.credit, e.amount, description⟩] } : LedgerDB)
        d (c + e.amount) hall1
      refine ⟨db', ?_⟩
      simp only [postEntries, hfind', hty]
      rw [hdb']
      have hD : d + entriesDebitTotal rest = d + entriesDebitTotal (e :: rest) := by
        simp only [entriesDebitTotal, List.filter_cons, hty]
        simp [entriesDebitTotal]
      have hC : c + e.amount + entriesCreditTotal rest = c + entriesCreditTotal (e :: rest) := by
        simp only [entriesCreditTotal, List.filter_cons, hty]
        simp [entriesCreditTotal]
        ring
      rw [hD, hC]

/-! ## The whole run of successful journal postings -/

theorem run_journal_ok (calls : List (String × List Entry)) :
    ∀ (db db' : LedgerDB), UniqueIds db → BalancedAccounts db →
      run_journal db calls = some db' →
      UniqueIds db' ∧ BalancedAccounts db' ∧
      |debitTotal db'.transactions - creditTotal db'.transactions|
        ≤ |debitTotal db.transactions - creditTotal db.transactions| + calls.length / 100 := by
  induction calls with
  | nil =>
    intro db db' hnd hb h
    simp only [run_journal, Option.some.injEq] at h
    subst h
    simp [hnd, hb]
  | cons call rest ih =>
    intro db db' hnd hb h
    obtain ⟨jeId, es⟩ := call
    rw [run_journal] at h
    cases hc : create_journal_entry db jeId es "entry" with
    | mk r db1 =>
      rw [hc] at h
      cases r with
      | error e => simp at h
      | ok s =>
        simp only at h
        obtain ⟨h1, h2, h3, h4, h5⟩ := create_journal_entry_ok db jeId "entry" s es db1 hnd hb hc
        obtain ⟨g1, g2, g3⟩ := ih db1 db' h1 h2 h
        refine ⟨g1, g2, ?_⟩
        have hdiff : debitTotal db1.transactions - creditTotal db1.transactions
            = (debitTotal db.transactions - creditTotal db.transactions)
              + (entriesDebitTotal es - entriesCreditTotal es) := by
          rw [h4, debitTotal_append, creditTotal_append, debitTotal_txnsOf, creditTotal_txnsOf]
          ring
        have hstep : |debitTotal db1.transactions - creditTotal db1.transactions|
            ≤ |debitTotal db.transactions - creditTotal db.transactions| + 1/100 := by
          rw [hdiff]
          calc |(debitTotal db.transactions - creditTotal db.transactions)
                  + (entriesDebitTotal es - entriesCreditTotal es)|
              ≤ |debitTotal db.transactions - creditTotal db.transactions|
                + |entriesDebitTotal es - entriesCreditTotal es| := abs_add _ _
            _ ≤ |debitTotal db.transactions - creditTotal db.transactions| + 1/100 := by
                linarith
        calc |debitTotal db'.transactions - creditTotal db'.transactions|
            ≤ |debitTotal db1.transactions - creditTotal db1.transactions| + rest.length / 100 := g3
          _ ≤ |debitTotal db.transactions - creditTotal db.transactions| + 1/100 + rest.length / 100 := by
              linarith
          _ = |debitTotal db.transactions - creditTotal db.transactions|
              + ((((jeId, es) :: rest) : List (String × List Entry)).length : ℚ) / 100 := by
              push_cast [List.length_cons]
              ring

/-! ## Signed sums versus the recompute formula of `AccountService` -/

theorem signedSum_debit_normal (aty : AccountType) (hty : aty = .asset ∨ aty = .expense)
    (i : Nat) (ts : List Transaction) :
    signedSum aty (accountPostings ts i) = debitSumFor ts i - creditSumFor ts i := by
  have hd : ∀ amt : ℚ, balanceDelta aty TransactionType.debit amt = amt := by
    intro amt
    simp only [balanceDelta]
    rw [if_pos hty]
  have hc : ∀ amt : ℚ, balanceDelta aty TransactionType.credit amt = -amt := by
    intro amt
    simp only [balanceDelta]
    rw [if_neg]
    intro hcon
    rcases hty with h | h <;> rcases hcon with h2 | h2 | h2 <;> simp_all
  induction ts with
  | nil => simp [signedSum, accountPostings, debitSumFor, creditSumFor]
  | cons t rest ih =>
    by_cases hi : t.account_id = i <;> cases htt : t.transaction_type <;>
      simp [accountPostings, signedSum, debitSumFor, creditSumFor, List.filter_cons, hi, htt, hd, hc] at ih ⊢ <;>
      linarith

theorem signedSum_credit_normal (aty : AccountType)
    (hty : aty = .liability ∨ aty = .equity ∨ aty = .income)
    (i : Nat) (ts : List Transaction) :
    signedSum aty (accountPostings ts i) = creditSumFor ts i - debitSumFor ts i := by
  have hd : ∀ amt : ℚ, balanceDelta aty TransactionType.debit amt = -amt := by
    intro amt
    simp only [balanceDelta]
    rw [if_neg]
    intro hcon
    rcases hty with h | h | h <;> rcases hcon with h2 | h2 <;> simp_all
  have hc : ∀ amt : ℚ, balanceDelta aty TransactionType.credit amt = amt := by
    intro amt
    simp only [balanceDelta]
    rw [if_pos hty]
  induction ts with
  | nil => simp [signedSum, accountPostings, debitSumFor, creditSumFor]
  | cons t rest ih =>
    by_cases hi : t.account_id = i <;> cases htt : t.transaction_type <;>
      simp [accountPostings, signedSum, debitSumFor, creditSumFor, List.filter_cons, hi, htt, hd, hc] at ih ⊢ <;>
      linarith

/-! ## Concrete evaluations shared by several counterexamples and witnesses -/

theorem exOff_commits :
    create_journal_entry exLedger0 "JE1" exEntriesOff "entry" = (.ok "JE1", exLedgerOff) := by
  have hpe : postEntries "JE1" "entry" exLedger0 exEntriesOff 0 0
      = .ok (exLedgerOff, 100, 9999/100) := by
    simp [postEntries, exLedger0, exEntriesOff, exLedgerOff, findAccount, updateFirst, balanceDelta]
  have habs : ¬ (|(100 : ℚ) - 9999/100| > 1/100) := by
    rw [show (100 : ℚ) - 9999/100 = 1/100 by norm_num]
    rw [abs_of_pos (by norm_num)]
    norm_num
  unfold create_journal_entry
  rw [hpe]
  dsimp only
  rw [if_neg habs]

theorem exBal_commits :
    create_journal_entry exLedger0 "JE1" exEntriesBal "entry" = (.ok "JE1", exLedgerBal) := by
  have hpe : postEntries "JE1" "entry" exLedger0 exEntriesBal 0 0
      = .ok (exLedgerBal, 100, 100) := by
    simp [postEntries, exLedger0, exEntriesBal, exLedgerBal, findAccount, updateFirst, balanceDelta]
  have habs : ¬ (|(100 : ℚ) - 100| > 1/100) := by
    rw [show (100 : ℚ) - 100 = 0 by norm_num, abs_zero]
    norm_num
  unfold create_journal_entry
  rw [hpe]
  dsimp only
  rw [if_neg habs]

theorem exBal_run : run_journal exLedger0 exCallsBal = some exLedgerBal := by
  simp only [exCallsBal, run_journal, exBal_commits]

theorem exOff_run : run_journal exLedger0 exCallsOff = some exLedgerOff := by
  simp only [exCallsOff, run_journal, exOff_commits]

theorem exLedger0_fresh : FreshLedger exLedger0 := by
  refine ⟨?_, ?_, rfl⟩
  · show (exLedger0.accounts.map (·.id)).Nodup
    decide
  · intro a ha
    simp only [exLedger0, List.mem_cons, List.not_mem_nil, or_false] at ha
    rcases ha with rfl | rfl <;> rfl

/-! ## Claim C1 -/

/-- C1 (amended): `create_journal_entry` compares the debit and credit
totals against a `0.01` tolerance, not exactly.  When every referenced
account exists, it fails with `UnbalancedEntry` — leaving every account
balance and the transaction table unchanged — precisely when
`|debit_sum - credit_sum| > 0.01`; a nonzero discrepancy of at most
`0.01` is accepted and commits. -/
theorem C1_unbalanced_tolerance (db : LedgerDB) (jeId description : String) (es : List Entry)
    (hacc : ∀ e ∈ es, e.account_id ∈ db.accounts.map (·.id)) :
    (|entriesDebitTotal es - entriesCreditTotal es| > 1/100 →
      create_journal_entry db jeId es description
        = (.error (.unbalancedEntry (entriesDebitTotal es) (entriesCreditTotal es)), db)) ∧
    (|entriesDebitTotal es - entriesCreditTotal es| ≤ 1/100 →
      ∃ db', create_journal_entry db jeId es description = (.ok jeId, db')) := by
  obtain ⟨db1, hpe⟩ := postEntries_ok_of_found jeId description es db 0 0 hacc
  rw [zero_add, zero_add] at hpe
  constructor
  · intro hgt
    unfold create_journal_entry
    rw [hpe]
    dsimp only
    rw [if_pos hgt]
  · intro hle
    refine ⟨db1, ?_⟩
    unfold create_journal_entry
    rw [hpe]
    dsimp only
    rw [if_neg (not_lt.mpr hle)]

/-- C1 witness: with debit 100 and credit 50 against the fresh two-account
chart, the discrepancy 50 exceeds the tolerance, the call fails with
`UnbalancedEntry`, and the database is returned unchanged. -/
theorem C1_unbalanced_tolerance_witness :
    |entriesDebitTotal exEntriesUnbal - entriesCreditTotal exEntriesUnbal| > 1/100 ∧
    create_journal_entry exLedger0 "JE1" exEntriesUnbal "entry"
      = (.error (.unbalancedEntry (entriesDebitTotal exEntriesUnbal)
                  (entriesCreditTotal exEntriesUnbal)), exLedger0) := by
  have hgt : |entriesDebitTotal exEntriesUnbal - entriesCreditTotal exEntriesUnbal| > 1/100 := by
    have hD : entriesDebitTotal exEntriesUnbal = 100 := by
      simp [entriesDebitTotal, exEntriesUnbal]
    have hC : entriesCreditTotal exEntriesUnbal = 50 := by
      simp [entriesCreditTotal, exEntriesUnbal]
    rw [hD, hC, show (100 : ℚ) - 50 = 50 by norm_num, abs_of_pos (by norm_num : (0:ℚ) < 50)]
    norm_num
  exact ⟨hgt,
    (C1_unbalanced_tolerance exLedger0 "JE1" "entry" exEntriesUnbal (by decide)).1 hgt⟩

/-- C1 counterexample: posting debit 100 / credit 99.99 — whose debit and
credit sums differ by the nonzero amount 0.01 — does not fail with
`UnbalancedEntry`: it succeeds and updates both account balances. -/
theorem C1_counterexample :
    create_journal_entry exLedger0 "JE1" exEntriesOff "entry" = (.ok "JE1", exLedgerOff) ∧
    entriesDebitTotal exEntriesOff - entriesCreditTotal exEntriesOff ≠ 0 ∧
    exLedgerOff.accounts ≠ exLedger0.accounts := by
  refine ⟨exOff_commits, ?_, ?_⟩
  · have hD : entriesDebitTotal exEntriesOff = 100 := by
      simp [entriesDebitTotal, exEntriesOff]
    have hC : entriesCreditTotal exEntriesOff = 9999/100 := by
      simp [entriesCreditTotal, exEntriesOff]
    rw [hD, hC]
    norm_num
  · simp only [exLedgerOff, exLedger0, ne_eq, List.cons.injEq]
    intro h
    have hbal : (100 : ℚ) = 0 := congrArg Account.balance h.1
    norm_num at hbal

/-! ## Claim C2 -/

/-- C2 (amended): for every sequence of successful `create_journal_entry`
calls from a fresh ledger, each account's denormalized balance equals the
signed sum of its own postings under the normal-balance rule; the global
debit and credit totals, however, agree only up to the per-entry `0.01`
tolerance — `|Σ debits − Σ credits| ≤ 0.01 · (number of calls)` — and need
not be exactly equal. -/
theorem C2_ledger_invariant (db0 : LedgerDB) (calls : List (String × List Entry))
    (db' : LedgerDB) (hfresh : FreshLedger db0) (hrun : run_journal db0 calls = some db') :
    (∀ a ∈ db'.accounts,
        a.balance = signedSum a.account_type (accountPostings db'.transactions a.id)) ∧
    |debitTotal db'.transactions - creditTotal db'.transactions| ≤ calls.length / 100 := by
  obtain ⟨hnd, hz, htx⟩ := hfresh
  have hb : BalancedAccounts db0 := by
    intro a ha
    rw [htx]
    simp [accountPostings, signedSum, hz a ha]
  obtain ⟨g1, g2, g3⟩ := run_journal_ok calls db0 db' hnd hb hrun
  refine ⟨g2, ?_⟩
  have h0 : |debitTotal db0.transactions - creditTotal db0.transactions| = 0 := by
    rw [htx]
    simp [debitTotal, creditTotal]
  rw [h0, zero_add] at g3
  exact g3

/-- C2 witness: the single balanced call on the fresh two-account chart
satisfies both conclusions. -/
theorem C2_ledger_invariant_witness :
    FreshLedger exLedger0 ∧ run_journal exLedger0 exCallsBal = some exLedgerBal ∧
    ((∀ a ∈ exLedgerBal.accounts,
        a.balance = signedSum a.account_type (accountPostings exLedgerBal.transactions a.id)) ∧
     |debitTotal exLedgerBal.transactions - creditTotal exLedgerBal.transactions|
        ≤ exCallsBal.length / 100) :=
  ⟨exLedger0_fresh, exBal_run,
   C2_ledger_invariant exLedger0 exCallsBal exLedgerBal exLedger0_fresh exBal_run⟩

/-- C2 counterexample: one successful call (debit 100, credit 99.99)
leaves the global debit total different from the global credit total. -/
theorem C2_counterexample :
    run_journal exLedger0 exCallsOff = some exLedgerOff ∧
    debitTotal exLedgerOff.transactions ≠ creditTotal exLedgerOff.transactions := by
  refine ⟨exOff_run, ?_⟩
  have hD : debitTotal exLedgerOff.transactions = 100 := by
    simp [debitTotal, exLedgerOff]
  have hC : creditTotal exLedgerOff.transactions = 9999/100 := by
    simp [creditTotal, exLedgerOff]
  rw [hD, hC]
  norm_num

/-! ## Claim C3 -/

/-- C3 (amended): `create_journal_entry` has no empty-postings check:
called with an empty entries list it succeeds (totals 0 = 0 pass the
balance check), returns the generated journal-entry id, and commits no
transaction rows and no balance changes. -/
theorem C3_empty_entries_accepted (db : LedgerDB) (jeId description : String) :
    create_journal_entry db jeId [] description = (.ok jeId, db) := by
  unfold create_journal_entry postEntries
  dsimp only
  rw [if_neg]
  rw [show (0 : ℚ) - 0 = 0 by norm_num, abs_zero]
  norm_num

/-- C3 counterexample: on the concrete fresh chart, the empty call returns
a journal-entry id and succeeds instead of failing with `EmptyEntry`. -/
theorem C3_counterexample :
    create_journal_entry exLedger0 "JE-EMPTY" [] "entry" = (.ok "JE-EMPTY", exLedger0) := by
  unfold create_journal_entry postEntries
  dsimp only
  rw [if_neg]
  rw [show (0 : ℚ) - 0 = 0 by norm_num, abs_zero]
  norm_num

/-! ## Claim C4 -/

/-- C4 (amended): after any sequence of successful postings from a fresh
ledger, the fast path (`AccountingService.get_account_balance`) returns the
stored balance, and the consistency-check path
(`AccountService.get_account_balance`, which recomputes
`debit_sum - credit_sum`) agrees with it exactly for asset and expense
accounts; for liability, equity and income accounts it returns the
negation of the stored balance instead, so the two paths agree on
credit-normal accounts only when the balance is zero. -/
theorem C4_balance_paths (db0 : LedgerDB) (calls : List (String × List Entry))
    (db' : LedgerDB) (hfresh : FreshLedger db0) (hrun : run_journal db0 calls = some db')
    (a : Account) (ha : a ∈ db'.accounts) :
    AccountingService.get_account_balance db' a.id = .ok a.balance ∧
    ((a.account_type = .asset ∨ a.account_type = .expense) →
      (AccountService.get_account_balance db' a.id).1 = .ok a.balance) ∧
    ((a.account_type = .liability ∨ a.account_type = .equity ∨ a.account_type = .income) →
      (AccountService.get_account_balance db' a.id).1 = .ok (-a.balance)) := by
  obtain ⟨hnd, hz, htx⟩ := hfresh
  have hb : BalancedAccounts db0 := by
    intro x hx
    rw [htx]
    simp [accountPostings, signedSum, hz x hx]
  obtain ⟨g1, g2, g3⟩ := run_journal_ok calls db0 db' hnd hb hrun
  have hfind : findAccount db'.accounts a.id = some a :=
    find?_key_eq_some_of_nodup (fun x : Account => x.id) db'.accounts g1 a ha
  have hbal := g2 a ha
  refine ⟨?_, ?_, ?_⟩
  · unfold AccountingService.get_account_balance
    rw [hfind]
  · intro hty
    unfold AccountService.get_account_balance
    rw [hfind]
    dsimp only
    rw [hbal, signedSum_debit_normal a.account_type hty a.id db'.transactions]
  · intro hty
    unfold AccountService.get_account_balance
    rw [hfind]
    dsimp only
    rw [hbal, signedSum_credit_normal a.account_type hty a.id db'.transactions, neg_sub]

/-- C4 witness: the income account of the concrete balanced run, on which
the fast path returns 100 and the recompute path returns −100. -/
theorem C4_balance_paths_witness :
    AccountingService.get_account_balance exLedgerBal (⟨2, .income, 100, true⟩ : Account).id
      = .ok (⟨2, .income, 100, true⟩ : Account).balance ∧
    (((⟨2, .income, 100, true⟩ : Account).account_type = .asset
        ∨ (⟨2, .income, 100, true⟩ : Account).account_type = .expense) →
      (AccountService.get_account_balance exLedgerBal (⟨2, .income, 100, true⟩ : Account).id).1
        = .ok (⟨2, .income, 100, true⟩ : Account).balance) ∧
    (((⟨2, .income, 100, true⟩ : Account).account_type = .liability
        ∨ (⟨2, .income, 100, true⟩ : Account).account_type = .equity
        ∨ (⟨2, .income, 100, true⟩ : Account).account_type = .income) →
      (AccountService.get_account_balance exLedgerBal (⟨2, .income, 100, true⟩ : Account).id).1
        = .ok (-(⟨2, .income, 100, true⟩ : Account).balance)) :=
  C4_balance_paths exLedger0 exCallsBal exLedgerBal exLedger0_fresh exBal_run
    ⟨2, .income, 100, true⟩ (by simp [exLedgerBal])

/-- C4 counterexample: after the balanced run, the fast path reads the
income account's balance as 100 while the consistency-check path
recomputes it as −100 — the two paths disagree on an income account. -/
theorem C4_counterexample :
    run_journal exLedger0 exCallsBal = some exLedgerBal ∧
    AccountingService.get_account_balance exLedgerBal 2 = .ok 100 ∧
    (AccountService.get_account_balance exLedgerBal 2).1 = .ok (-100) := by
  refine ⟨exBal_run, ?_, ?_⟩
  · simp [AccountingService.get_account_balance, exLedgerBal, findAccount]
  · simp [AccountService.get_account_balance, exLedgerBal, findAccount,
      debitSumFor, creditSumFor]

/-! ## Claim C5 -/

/-- C5: `can_transition` accepts exactly the pairs of the claim's
transition table; the terminal states `completed`, `cancelled` and
`expired` admit no outgoing transition; `dispatched → pending_payment` is
refused; and `transition_order_state` on an order whose current status
refuses the move fails with `InvalidTransition` and leaves the database —
in particular the order's status — unchanged. -/
theorem C5_fsm_closure :
    (∀ from_state to_state : OrderStatus,
        can_transition from_state to_state = true
          ↔ (from_state, to_state) ∈ specTransitionTable) ∧
    (∀ to_state : OrderStatus,
        can_transition .completed to_state = false ∧
        can_transition .cancelled to_state = false ∧
        can_transition .expired to_state = false) ∧
    can_transition .dispatched .pending_payment = false ∧
    (∀ (db : OrderDB) (order_id : Nat) (o : Order) (to_state : OrderStatus)
        (performed_by reason : String),
      db.orders.find? (fun x => x.id == order_id) = some o →
      can_transition o.status to_state = false →
      OrderService.transition_order_state db order_id to_state performed_by reason
        = (.error (.invalidTransition o.status to_state), db)) := by
  refine ⟨by decide, by decide, by decide, ?_⟩
  intro db order_id o to_state performed_by reason hfind hcan
  unfold OrderService.transition_order_state
  rw [hfind]
  simp [hcan]

/-- C5 witness: `dispatched → pending_payment` on a concrete dispatched
order fails with `InvalidTransition` and leaves the database unchanged. -/
theorem C5_fsm_closure_witness :
    OrderService.transition_order_state exOrderDB 1 .pending_payment "tester" "no"
      = (.error (.invalidTransition .dispatched .pending_payment), exOrderDB) :=
  C5_fsm_closure.2.2.2 exOrderDB 1 exOrderDispatched .pending_payment "tester" "no"
    rfl (by decide)

/-! ## Claim C9 -/

/-- C9 (code bug at the failing input): a stale order in
`payment_submitted` is selected by `expire_old_orders`, but
`payment_submitted → expired` is not in `ORDER_STATE_TRANSITIONS`, so the
reused `transition_order_state` raises `InvalidTransition`: the sweep
aborts with the error instead of expiring the order and counting it, and
the order stays `payment_submitted`. -/
theorem C9_expiry_bug :
    OrderService.expire_old_orders exOrderDBStale 1
      = (.error (.invalidTransition .payment_submitted .expired), exOrderDBStale) ∧
    can_transition .payment_submitted .expired = false := by
  constructor
  · rfl
  · rfl

/-! ## Claim C7 -/

/-- C7 (code bug at the failing input): on a physical product with stock 5,
a `damage` movement of 6 — a quantity exceeding the stock — fails with
`AttributeError` (raised at `inventory.py` line 47 when the nonexistent
`MovementType.PURCHASE` is evaluated), not with `InsufficientStock`, and
the database is unchanged only because nothing ever commits; a `damage`
movement of 1, which the claim says must commit, fails the same way, so no
sale or damage movement can ever be recorded.  (A `sale` cannot even be
requested: `MovementType.SALE` does not exist either, so `record_sale`
itself raises `AttributeError` when building the call.) -/
theorem C7_oversell_attribute_error :
    InventoryService.record_movement exInvDB 1 .damage 6 = (.error .attributeError, exInvDB) ∧
    InventoryService.record_movement exInvDB 1 .damage 1 = (.error .attributeError, exInvDB) :=
  ⟨rfl, rfl⟩

/-! ## Claim C10 -/

/-- C10 (code bug at the failing input): on a physical product with stock
5, an `adjustment` movement of −10 does not succeed and does not set the
stock to −5: like every `record_movement` call it raises `AttributeError`
at `inventory.py` line 47, before the unconditional adjustment branch at
line 53, and the database is unchanged. -/
theorem C10_adjustment_attribute_error :
    InventoryService.record_movement exInvDB 1 .adjustment (-10)
      = (.error .attributeError, exInvDB) :=
  rfl

/-! ## Claim C8 -/

theorem buildItems_ok (products : List Product) :
    ∀ (items : List (Nat × Int)) (subtotal : ℚ) (acc : List OrderItem),
      (∀ pr ∈ items, (products.find? (fun p => p.id == pr.1)).isSome) →
      ∃ built, OrderService.buildItems products items subtotal acc
          = .ok (subtotal + (built.map (·.subtotal)).sum, acc ++ built) ∧
        built.length = items.length ∧
        (∀ it ∈ built, ∃ product,
            products.find? (fun p => p.id == it.product_id) = some product ∧
            it.unit_price = product.selling_price ∧
            it.subtotal = it.unit_price * (it.quantity : ℚ)) := by
  intro items
  induction items with
  | nil =>
    intro subtotal acc _
    refine ⟨[], ?_, rfl, by simp⟩
    simp [OrderService.buildItems]
  | cons pr rest ih =>
    obtain ⟨product_id, quantity⟩ := pr
    intro subtotal acc hall
    have hsome := hall (product_id, quantity) (List.mem_cons_self _ _)
    obtain ⟨product, hfind⟩ := Option.isSome_iff_exists.mp hsome
    obtain ⟨built, hb1, hb2, hb3⟩ :=
      ih (subtotal + product.selling_price * (quantity : ℚ))
         (acc ++ [{ order_id := 0, product_id := product_id, product_name := product.name,
                    product_sku := product.sku, quantity := quantity,
                    unit_price := product.selling_price,
                    subtotal := product.selling_price * (quantity : ℚ) }])
         (fun pr' hpr' => hall pr' (List.mem_cons_of_mem _ hpr'))
    refine ⟨{ order_id := 0, product_id := product_id, product_name := product.name,
              product_sku := product.sku, quantity := quantity,
              unit_price := product.selling_price,
              subtotal := product.selling_price * (quantity : ℚ) } :: built, ?_, ?_, ?_⟩
    · show OrderService.buildItems products ((product_id, quantity) :: rest) subtotal acc = _
      simp only [OrderService.buildItems, hfind]
      rw [hb1]
      simp only [Except.ok.injEq, Prod.mk.injEq]
      constructor
      · simp only [List.map_cons, List.sum_cons]
        ring
      · simp
    · simp [hb2]
    · intro it hit
      rcases List.mem_cons.mp hit with rfl | h
      · exact ⟨product, hfind, rfl, rfl⟩
      · exact hb3 it h

/-- C8: `create_order` (services/order.py) snapshots each item's
`unit_price` from the product's `selling_price` at creation time, computes
the order subtotal as the sum over items of `unit_price × quantity`, and
returns the order with `total_amount = subtotal` (the function applies no
tax and no discount). -/
theorem C8_order_totals (db : OrderDB) (order_number : String) (customer_id : Nat)
    (items : List (Nat × Int)) (now expiry_hours : Int) (order_id : Nat)
    (hall : ∀ pr ∈ items, (db.products.find? (fun p => p.id == pr.1)).isSome) :
    ∃ (ord : Order) (built : List OrderItem) (db' : OrderDB),
      OrderService.create_order db order_number customer_id items now expiry_hours order_id
        = (.ok ord, db') ∧
      db'.order_items = db.order_items ++ built ∧
      built.length = items.length ∧
      (∀ it ∈ built, ∃ product,
          db.products.find? (fun p => p.id == it.product_id) = some product ∧
          it.unit_price = product.selling_price ∧
          it.subtotal = it.unit_price * (it.quantity : ℚ)) ∧
      ord.subtotal = (built.map (·.subtotal)).sum ∧
      ord.total_amount = ord.subtotal := by
  obtain ⟨built0, hb1, hb2, hb3⟩ := buildItems_ok db.products items 0 [] hall
  refine ⟨{ id := order_id, order_number := order_number, customer_id := customer_id,
            status := OrderStatus.pending_payment,
            subtotal := 0 + (built0.map (·.subtotal)).sum,
            total_amount := 0 + (built0.map (·.subtotal)).sum,
            expires_at := now + expiry_hours },
          built0.map (fun it => { it with order_id := order_id }),
          { db with
              orders := db.orders ++
                [{ id := order_id, order_number := order_number, customer_id := customer_id,
                   status := OrderStatus.pending_payment,
                   subtotal := 0 + (built0.map (·.subtotal)).sum,
                   total_amount := 0 + (built0.map (·.subtotal)).sum,
                   expires_at := now + expiry_hours }],
              order_items := db.order_items ++ built0.map (fun it => { it with order_id := order_id }) },
          ?_, ?_, ?_, ?_, ?_, ?_⟩
  · unfold OrderService.create_order
    rw [hb1]
    rfl
  · rfl
  · simp [hb2]
  · intro it hit
    rcases List.mem_map.mp hit with ⟨it0, hit0, rfl⟩
    obtain ⟨product, h1, h2, h3⟩ := hb3 it0 hit0
    exact ⟨product, h1, h2, h3⟩
  · show (0 : ℚ) + (built0.map (·.subtotal)).sum = _
    rw [zero_add, List.map_map]
    congr 1
  · rfl

/-- C8 witness: the two-product catalog priced 10 and 5 with quantities 2
and 3 — the created order has `subtotal = total_amount = 35`. -/
theorem C8_order_totals_witness :
    (∃ (ord : Order) (built : List OrderItem) (db' : OrderDB),
      OrderService.create_order exCatalog "ORD-1" 7 [(1, 2), (2, 3)] 0 48 1
        = (.ok ord, db') ∧
      db'.order_items = exCatalog.order_items ++ built ∧
      built.length = ([(1, 2), (2, 3)] : List (Nat × Int)).length ∧
      (∀ it ∈ built, ∃ product,
          exCatalog.products.find? (fun p => p.id == it.product_id) = some product ∧
          it.unit_price = product.selling_price ∧
          it.subtotal = it.unit_price * (it.quantity : ℚ)) ∧
      ord.subtotal = (built.map (·.subtotal)).sum ∧
      ord.total_amount = ord.subtotal) ∧
    (OrderService.create_order exCatalog "ORD-1" 7 [(1, 2), (2, 3)] 0 48 1).1
      = .ok ({ id := 1, order_number := "ORD-1", customer_id := 7,
               status := .pending_payment, subtotal := 35, total_amount := 35,
               expires_at := 48 } : Order) :=
  ⟨C8_order_totals exCatalog "ORD-1" 7 [(1, 2), (2, 3)] 0 48 1 (by decide),
   by norm_num [OrderService.create_order, OrderService.buildItems, exCatalog]⟩

/-! ## Claim C6 -/

/-- C6 (amended): `create_order` (`services/order.py`) performs no stock
handling at all: it records no stock movement of any type, never reads or
decrements `stock_quantity`, and never fails with `InsufficientStock` —
whenever every ordered product exists, it creates the order (appending it
to the orders table) and leaves the products table, stock included,
unchanged, regardless of how the ordered quantities compare with the
available stock. -/
theorem C6_no_stock_handling (db : OrderDB) (order_number : String) (customer_id : Nat)
    (items : List (Nat × Int)) (now expiry_hours : Int) (order_id : Nat)
    (hall : ∀ pr ∈ items, (db.products.find? (fun p => p.id == pr.1)).isSome) :
    ∃ ord db',
      OrderService.create_order db order_number customer_id items now expiry_hours order_id
        = (.ok ord, db') ∧
      db'.products = db.products ∧
      db'.orders = db.orders ++ [ord] := by
  obtain ⟨built0, hb1, hb2, hb3⟩ := buildItems_ok db.products items 0 [] hall
  refine ⟨{ id := order_id, order_number := order_number, customer_id := customer_id,
            status := OrderStatus.pending_payment,
            subtotal := 0 + (built0.map (·.subtotal)).sum,
            total_amount := 0 + (built0.map (·.subtotal)).sum,
            expires_at := now + expiry_hours },
          { db with
              orders := db.orders ++
                [{ id := order_id, order_number := order_number, customer_id := customer_id,
                   status := OrderStatus.pending_payment,
                   subtotal := 0 + (built0.map (·.subtotal)).sum,
                   total_amount := 0 + (built0.map (·.subtotal)).sum,
                   expires_at := now + expiry_hours }],
              order_items := db.order_items
                ++ built0.map (fun it => { it with order_id := order_id }) },
          ?_, rfl, rfl⟩
  unfold OrderService.create_order
  rw [hb1]
  rfl

/-- C6 witness: the one-product catalog with stock 5 — ordering 6 units of
the physical product succeeds and leaves the products table unchanged. -/
theorem C6_no_stock_handling_witness :
    ((5 : Int) < 6) ∧
    ∃ ord db',
      OrderService.create_order exCatalogLow "ORD-1" 7 [(1, 6)] 0 48 1 = (.ok ord, db') ∧
      db'.products = exCatalogLow.products ∧
      db'.orders = exCatalogLow.orders ++ [ord] :=
  ⟨by decide, C6_no_stock_handling exCatalogLow "ORD-1" 7 [(1, 6)] 0 48 1 (by decide)⟩

/-- C6 counterexample: `services/order.py`'s `create_order` — a listed
implementation of `createOrder` — ordering 6 units of a physical product
with stock 5 succeeds (status `pending_payment`) and leaves the products
table, stock included, completely unchanged: no `InsufficientStock`
failure, no stock decrement and no stock movement of any type. -/
theorem C6_counterexample :
    exCatalogLow.products.find? (fun p => p.id == 1)
      = some { id := 1, name := "A", sku := "SKU-A", product_type := .physical,
               selling_price := 10, stock_quantity := 5 } ∧
    ((5 : Int) < 6) ∧
    ((OrderService.create_order exCatalogLow "ORD-1" 7 [(1, 6)] 0 48 1).1).map
        (fun o => o.status) = .ok OrderStatus.pending_payment ∧
    (OrderService.create_order exCatalogLow "ORD-1" 7 [(1, 6)] 0 48 1).2.products
      = exCatalogLow.products :=
  ⟨rfl, by decide, rfl, rfl⟩

end Mint
